import Mathlib

/-!
Verification development for the Federal Register API client
(`federal_register_api.py`).

The file embeds, as pure Lean functions, the two observable stages of the
client:

* the query encoder of `FederalRegisterClient.search_documents` (lines
  34-159 of the source): from the method's arguments to the ordered
  `param_tuples` list handed to the HTTP GET;
* the result assembly of `FederalRegisterClient.get_document_text`
  (lines 185-261): the two HTTP responses are passed in as explicit
  values, and `requests`' exception behaviour (`raise_for_status`,
  connection errors) is modelled by an `Except` monad.
-/

/-- Python truthiness of an optional string argument (`if x:` in the
source): `None` and the empty string are falsy, any other string truthy. -/
def truthy : Option String → Bool
  | none => false
  | some s => !s.isEmpty

/-- The arguments of `search_documents` (source lines 34-43).  The source
accepts a single optional `president` slug and a single optional `agency`
slug; `per_page` and `page` are Python ints. -/
structure SearchArgs where
  is_rule : Bool
  is_executive_order : Bool
  from_date : Option String
  to_date : Option String
  president : Option String
  agency : Option String
  per_page : Int
  page : Int
deriving DecidableEq

/-- The fixed field-selection list of `params["fields[]"]` (source lines
75-81). -/
def fieldsSelection : List String :=
  ["document_number", "title", "abstract", "raw_text_url", "publication_date"]

/-- The `type_list` of source lines 88-92: `RULE` when `is_rule`, then
`PRESDOCU` when `is_executive_order`. -/
def typeList (a : SearchArgs) : List String :=
  (if a.is_rule then ["RULE"] else []) ++
  (if a.is_executive_order then ["PRESDOCU"] else [])

/-- The `conditions` dict (source lines 109-130), in insertion order.
Each guard is the Python truthiness test of the corresponding `if`. -/
def conditionsList (a : SearchArgs) : List (String × String) :=
  (if truthy a.from_date then [("publication_date[gte]", a.from_date.getD "")] else []) ++
  (if truthy a.to_date then [("publication_date[lte]", a.to_date.getD "")] else []) ++
  (if truthy a.president && a.is_executive_order then [("president[]", a.president.getD "")] else []) ++
  (if truthy a.agency && a.is_rule then [("agencies[]", a.agency.getD "")] else []) ++
  (if a.is_executive_order then [("presidential_document_type[]", "executive_order")] else [])

/-- The `param_tuples` list of source lines 138-155: the flat ordered key/value
sequence passed to the GET request.  Every condition key is built by the
source's format string as `"conditions[" + k + "]"` where `k` is a key of
the `conditions` dict. -/
def searchParams (a : SearchArgs) : List (String × String) :=
  ([("per_page", toString a.per_page), ("page", toString a.page)] ++
    fieldsSelection.map (fun f => ("fields[]", f))) ++
  (typeList a).map (fun t => ("conditions[type][]", t)) ++
  (conditionsList a).map (fun kv => ("conditions[" ++ kv.1 ++ "]", kv.2))

/-- Outcome of the request-construction stage of `search_documents`:
either an HTTP request is issued, carrying the encoded parameter list, or
the call fails before any network I/O with a validation error.  The
second constructor states the failure mode the specification claims; the
source (lines 72-159) has no validation branch. -/
inductive EncodeOutcome where
  | request (params : List (String × String))
  | validationError
deriving DecidableEq

/-- The request stage of `search_documents` (source lines 72-159): the
code builds `param_tuples` and unconditionally issues the GET with them;
no argument is validated. -/
def search_documents (a : SearchArgs) : EncodeOutcome :=
  .request (searchParams a)

/-! ### Document fetcher (`get_document_text`, source lines 185-261) -/

/-- The single-document metadata record, restricted to the fields the
source reads from `doc_data` (a parsed JSON dict): each `doc_data.get(k)`
is an `Option`, and `agency_names` defaults to `[]` when missing (source
line 233). -/
structure DocRecord where
  type : Option String
  title : Option String
  publication_date : Option String
  president : Option String
  agency_names : Option (List String)
  raw_text_url : Option String
deriving DecidableEq

/-- The result dict of `get_document_text` (source lines 253-259). -/
structure DocResult where
  title : Option String
  date : Option String
  president : Option String
  agency : Option String
  text : String
deriving DecidableEq

/-- The exceptions the fetch can surface: `requests.exceptions.HTTPError`
raised by `raise_for_status` (carrying the response status code), or a
connection-level exception (`requests.exceptions.ConnectionError`,
timeouts, ...) raised when no response was obtained. -/
inductive PyExn where
  | HTTPError (status : Nat)
  | ConnectionError
deriving DecidableEq

/-- One HTTP exchange as seen by the client: either a response with a
status code and a (parsed) body, or a network-level failure before any
response. -/
inductive HttpResp (α : Type) where
  | ok (status : Nat) (body : α)
  | netFail
deriving DecidableEq

/-- The `Response.raise_for_status` method of `requests`: raises
`HTTPError` exactly for status codes 400-599, otherwise returns
normally. -/
def raise_for_status (status : Nat) : Except PyExn Unit :=
  if 400 ≤ status ∧ status < 600 then .error (.HTTPError status) else .ok ()

/-- The sentinel text used when the record has no `raw_text_url` (source
line 250). -/
def noTextSentinel : String := "[No raw_text_url available for this document.]"

/-- The body of `get_document_text` (source lines 185-261), with the two HTTP
exchanges passed in explicitly: `metaResp` is the response to
`GET /documents/{document_number}.json`, and `textResp` the response to
the `raw_text_url` GET (consulted only when the record carries a truthy
`raw_text_url`).  Mirrors the source line by line: `raise_for_status` on
the metadata response, the `PRESDOCU` guard on `president`, first entry
of `agency_names`, and the sentinel fallback for a missing
`raw_text_url`. -/
def get_document_text (metaResp : HttpResp DocRecord)
    (textResp : HttpResp String) : Except PyExn DocResult :=
  match metaResp with
  | .netFail => .error .ConnectionError
  | .ok s doc_data =>
    match raise_for_status s with
    | .error e => .error e
    | .ok _ =>
      let president := if doc_data.type = some "PRESDOCU" then doc_data.president else none
      let agencies := doc_data.agency_names.getD []
      let agency := match agencies with
        | [] => none
        | a :: _ => some a
      if truthy doc_data.raw_text_url then
        match textResp with
        | .netFail => .error .ConnectionError
        | .ok ts body =>
          match raise_for_status ts with
          | .error e => .error e
          | .ok _ =>
            .ok ⟨doc_data.title, doc_data.publication_date, president, agency, body⟩
      else
        .ok ⟨doc_data.title, doc_data.publication_date, president, agency, noTextSentinel⟩

/-- The error taxonomy of the specification (§7), modelled from the spec:
`NotFoundError` (no such document number), `TransientError` (network
failure or 5xx), `FatalError` (4xx other than not-found). -/
inductive SpecErrClass where
  | NotFoundError
  | TransientError
  | FatalError
deriving DecidableEq

/-- Modelled from the spec: the classification a caller applies to the
exception raised by the fetch, following the spec's taxonomy (§4.2 step 1,
§7).  It is a function of the raised exception alone — the exception class
distinguishes connection failures, and the status code carried by
`HTTPError` distinguishes not-found (404), 5xx and other 4xx. -/
def specErrClass : PyExn → SpecErrClass
  | .ConnectionError => .TransientError
  | .HTTPError s =>
    if s = 404 then .NotFoundError
    else if 500 ≤ s then .TransientError
    else .FatalError

/-! ### Concrete inputs used by the theorems -/

/-- Arguments of `search_documents(per_page=1001)`, all others at their
source defaults (source lines 36-43). -/
def argsPerPage1001 : SearchArgs := ⟨true, true, none, none, none, none, 1001, 1⟩

/-- Arguments of `search_documents(from_date="2025-01-01",
to_date="2025-02-21")`, all others at their source defaults. -/
def argsBothDates : SearchArgs :=
  ⟨true, true, some "2025-01-01", some "2025-02-21", none, none, 20, 1⟩

/-- The spec's end-to-end scenario: presidential documents only
(`is_rule=False, is_executive_order=True`), `president="donald-trump"`,
`from_date="2025-01-20"`, no upper bound. -/
def argsScenario : SearchArgs :=
  ⟨false, true, some "2025-01-20", none, some "donald-trump", none, 20, 1⟩

/-- Arguments of `search_documents(is_rule=True, is_executive_order=False,
agency="a")`. -/
def argsAgencySingle : SearchArgs := ⟨true, false, none, none, none, some "a", 20, 1⟩

/-- Both document-type flags off while `president` and `agency` are
supplied. -/
def argsNoFlags : SearchArgs :=
  ⟨false, false, some "2025-01-01", none, some "donald-trump",
    some "environmental-protection-agency", 20, 1⟩

/-- A metadata record with every optional field absent. -/
def emptyDoc : DocRecord := ⟨none, none, none, none, none, none⟩

/-- A record carrying a `raw_text_url`. -/
def docWithUrl : DocRecord :=
  ⟨some "RULE", some "A Rule", some "2025-01-01", none,
    some ["Environmental Protection Agency"], some "https://example.org/raw.txt"⟩

/-- A non-presidential record whose raw JSON nevertheless carries a
`president` field. -/
def presidentRuleDoc : DocRecord :=
  ⟨some "RULE", some "A Rule", some "2025-01-01", some "stray-president",
    some [], none⟩

/-- A presidential-document record with a `president` field. -/
def presdocuDoc : DocRecord :=
  ⟨some "PRESDOCU", some "An EO", some "2025-01-21", some "donald-trump",
    none, none⟩

/-- A record listing two agency names. -/
def twoAgencyDoc : DocRecord :=
  ⟨some "RULE", some "A Rule", some "2025-01-01", none,
    some ["Agency One", "Agency Two"], none⟩

/-! ### Helper lemmas about the encoder -/

/-- Every key of the `conditions` dict is one of the five literal keys
inserted by source lines 109-130. -/
theorem conditionsList_keys (a : SearchArgs) :
    ∀ p ∈ conditionsList a,
      p.1 = "publication_date[gte]" ∨ p.1 = "publication_date[lte]" ∨
      p.1 = "president[]" ∨ p.1 = "agencies[]" ∨
      p.1 = "presidential_document_type[]" := by
  intro p hp
  unfold conditionsList at hp
  simp only [List.mem_append] at hp
  rcases hp with ((((h | h) | h) | h) | h) <;>
    (split at h <;> simp_all)

/-- The pagination/field-selection prefix contributes no
`conditions[type][]` pair. -/
theorem filter_typeKey_prefix (a : SearchArgs) :
    ([("per_page", toString a.per_page), ("page", toString a.page)] ++
      fieldsSelection.map (fun f => ("fields[]", f))).filter
        (fun p => p.1 = "conditions[type][]") = [] := by
  simp [fieldsSelection, List.filter]

/-- The mapped `conditions` dict contributes no `conditions[type][]`
pair. -/
theorem filter_typeKey_conditions (a : SearchArgs) :
    ((conditionsList a).map (fun kv => ("conditions[" ++ kv.1 ++ "]", kv.2))).filter
      (fun p => p.1 = "conditions[type][]") = [] := by
  rw [List.filter_eq_nil_iff]
  intro p hp
  obtain ⟨kv, hkv, rfl⟩ := List.mem_map.mp hp
  rcases conditionsList_keys a kv hkv with h | h | h | h | h <;> simp [h]

/-- The `conditions[type][]` pairs of the encoded parameter list are
exactly the `type_list` entries, in order. -/
theorem filter_typeKey (a : SearchArgs) :
    ((searchParams a).filter (fun p => p.1 = "conditions[type][]")).map Prod.snd
      = typeList a := by
  unfold searchParams
  rw [List.filter_append, List.filter_append, filter_typeKey_prefix,
    filter_typeKey_conditions]
  have hkeep : ((typeList a).map (fun t => ("conditions[type][]", t))).filter
      (fun p => p.1 = "conditions[type][]")
      = (typeList a).map (fun t => ("conditions[type][]", t)) := by
    rw [List.filter_eq_self]
    intro p hp
    obtain ⟨t, _, rfl⟩ := List.mem_map.mp hp
    simp
  simp [hkeep]

/-! ### C1: per_page validation -/

/-- Claim C1 counterexample: at `per_page = 1001` the code does not fail
with a validation error — it issues the HTTP request, whose encoded
parameter list carries `per_page=1001`. -/
theorem C1_perPage1001_request_issued :
    search_documents argsPerPage1001 = .request (searchParams argsPerPage1001) ∧
    ("per_page", "1001") ∈ searchParams argsPerPage1001 ∧
    search_documents argsPerPage1001 ≠ .validationError :=
  ⟨rfl, by decide, by decide⟩

/-- Claim C1 (amended): `search_documents` performs no validation of
`per_page` (or any argument): for every argument record, the outcome is
the issued request, and the encoded parameters carry the given `per_page`
value verbatim. -/
theorem C1_no_validation (a : SearchArgs) :
    search_documents a = .request (searchParams a) ∧
    ("per_page", toString a.per_page) ∈ searchParams a :=
  ⟨rfl, by simp [searchParams]⟩

/-! ### C2: publication-date keys -/

/-- Claim C2: refuted on the code.  With both date bounds given, the code
emits the malformed keys `conditions[publication_date[gte]]` and
`conditions[publication_date[lte]]` (the source formats
`f"conditions[{k}]"` with `k = "publication_date[gte]"`), and no pair
with the documented keys `conditions[publication_date][gte]` /
`conditions[publication_date][lte]` appears. -/
theorem C2_date_keys_malformed :
    ("conditions[publication_date[gte]]", "2025-01-01") ∈ searchParams argsBothDates ∧
    ("conditions[publication_date[lte]]", "2025-02-21") ∈ searchParams argsBothDates ∧
    "conditions[publication_date][gte]" ∉ (searchParams argsBothDates).map Prod.fst ∧
    "conditions[publication_date][lte]" ∉ (searchParams argsBothDates).map Prod.fst := by
  decide

/-! ### C3: end-to-end scenario -/

/-- Claim C3: refuted on the code.  For the scenario request the full
encoded parameter list is computed below: `conditions[type][]=PRESDOCU`
does appear, but the other three claimed keys come out malformed
(`conditions[publication_date[gte]]`, `conditions[president[]]`,
`conditions[presidential_document_type[]]`), and none of the claimed
bracketed keys appears. -/
theorem C3_scenario_keys :
    searchParams argsScenario =
      [("per_page", "20"), ("page", "1"),
       ("fields[]", "document_number"), ("fields[]", "title"), ("fields[]", "abstract"),
       ("fields[]", "raw_text_url"), ("fields[]", "publication_date"),
       ("conditions[type][]", "PRESDOCU"),
       ("conditions[publication_date[gte]]", "2025-01-20"),
       ("conditions[president[]]", "donald-trump"),
       ("conditions[presidential_document_type[]]", "executive_order")] ∧
    "conditions[presidential_document_type][]" ∉ (searchParams argsScenario).map Prod.fst ∧
    "conditions[president][]" ∉ (searchParams argsScenario).map Prod.fst ∧
    "conditions[publication_date][gte]" ∉ (searchParams argsScenario).map Prod.fst ∧
    "conditions[publication_date][lte]" ∉ (searchParams argsScenario).map Prod.fst ∧
    "conditions[publication_date[lte]]" ∉ (searchParams argsScenario).map Prod.fst := by
  decide

/-! ### C4: agency pairs -/

/-- Claim C4: refuted on the code.  The source accepts a single `agency`
slug (not a list); with `agency="a"` it emits exactly one agency pair,
and its key is the malformed `conditions[agencies[]]`, never the
documented `conditions[agencies][]`. -/
theorem C4_agency_key :
    searchParams argsAgencySingle =
      [("per_page", "20"), ("page", "1"),
       ("fields[]", "document_number"), ("fields[]", "title"), ("fields[]", "abstract"),
       ("fields[]", "raw_text_url"), ("fields[]", "publication_date"),
       ("conditions[type][]", "RULE"),
       ("conditions[agencies[]]", "a")] ∧
    "conditions[agencies][]" ∉ (searchParams argsAgencySingle).map Prod.fst := by
  decide

/-! ### C9: one `conditions[type][]` pair per requested type -/

/-- Claim C9: for every argument record, the encoded parameter list
contains exactly one `conditions[type][]` pair per entry of the derived
type list, with the type values in the given order (`RULE` before
`PRESDOCU`); when both flags are set the values are exactly
`["RULE", "PRESDOCU"]`. -/
theorem C9_type_pairs (a : SearchArgs) :
    ((searchParams a).filter (fun p => p.1 = "conditions[type][]")).map Prod.snd
      = typeList a ∧
    (a.is_rule = true → a.is_executive_order = true →
      ((searchParams a).filter (fun p => p.1 = "conditions[type][]")).map Prod.snd
        = ["RULE", "PRESDOCU"]) := by
  refine ⟨filter_typeKey a, fun h1 h2 => ?_⟩
  rw [filter_typeKey a]
  simp [typeList, h1, h2]

/-- Claim C9 witness: the hypotheses of `C9_type_pairs` discharged at the
default arguments (both flags true). -/
theorem C9_type_pairs_witness :
    ((searchParams ⟨true, true, none, none, none, none, 20, 1⟩).filter
        (fun p => p.1 = "conditions[type][]")).map Prod.snd
      = ["RULE", "PRESDOCU"] :=
  (C9_type_pairs ⟨true, true, none, none, none, none, 20, 1⟩).2 rfl rfl

/-! ### C10: both flags off -/

/-- Claim C10: when both `is_rule` and `is_executive_order` are false,
every emitted key is pagination (`per_page`, `page`), field selection
(`fields[]`), or a publication-date condition (in the code's spelling),
even when `president` and `agency` are supplied; in particular no type,
president, agency or presidential-subtype pair is emitted. -/
theorem C10_no_filter_pairs (a : SearchArgs) (h1 : a.is_rule = false)
    (h2 : a.is_executive_order = false) :
    ∀ p ∈ searchParams a,
      p.1 = "per_page" ∨ p.1 = "page" ∨ p.1 = "fields[]" ∨
      p.1 = "conditions[publication_date[gte]]" ∨
      p.1 = "conditions[publication_date[lte]]" := by
  have ht : typeList a = [] := by simp [typeList, h1, h2]
  have hc : conditionsList a =
      (if truthy a.from_date then [("publication_date[gte]", a.from_date.getD "")] else []) ++
      (if truthy a.to_date then [("publication_date[lte]", a.to_date.getD "")] else []) := by
    simp [conditionsList, h1, h2]
  unfold searchParams
  rw [ht, hc]
  by_cases hfd : truthy a.from_date = true <;> by_cases htd : truthy a.to_date = true <;>
    simp [hfd, htd, fieldsSelection, List.forall_mem_cons] 

/-- Claim C10 witness: with both flags off and `president`/`agency`
supplied, the pairs those arguments would otherwise produce are absent
from the encoded parameters. -/
theorem C10_no_filter_pairs_witness :
    ("conditions[president[]]", "donald-trump") ∉ searchParams argsNoFlags ∧
    ("conditions[agencies[]]", "environmental-protection-agency") ∉ searchParams argsNoFlags ∧
    ("conditions[presidential_document_type[]]", "executive_order") ∉ searchParams argsNoFlags := by
  refine ⟨fun hm => ?_, fun hm => ?_, fun hm => ?_⟩ <;>
    · have h := C10_no_filter_pairs argsNoFlags rfl rfl _ hm
      simp at h

/-! ### C5: error taxonomy of the metadata request -/

/-- Claim C5: the metadata request of `get_document_text` surfaces, for a
network failure a connection error, for a 404 (document number unknown)
an `HTTPError` carrying 404, for a 5xx an `HTTPError` carrying that
status, and for any other 4xx an `HTTPError` carrying that status; the
caller-side classification `specErrClass` of the raised exception yields
`TransientError`, `NotFoundError`, `TransientError` and `FatalError`
respectively, so the three outcomes are distinguishable. -/
theorem C5_error_taxonomy (d : DocRecord) (tr : HttpResp String) (s : Nat) :
    (get_document_text .netFail tr = .error .ConnectionError ∧
      specErrClass .ConnectionError = .TransientError) ∧
    (get_document_text (.ok 404 d) tr = .error (.HTTPError 404) ∧
      specErrClass (.HTTPError 404) = .NotFoundError) ∧
    (500 ≤ s → s < 600 →
      get_document_text (.ok s d) tr = .error (.HTTPError s) ∧
      specErrClass (.HTTPError s) = .TransientError) ∧
    (400 ≤ s → s < 500 → s ≠ 404 →
      get_document_text (.ok s d) tr = .error (.HTTPError s) ∧
      specErrClass (.HTTPError s) = .FatalError) := by
  have herr : ∀ t : Nat, 400 ≤ t → t < 600 →
      get_document_text (.ok t d) tr = .error (.HTTPError t) := by
    intro t h4 h6
    have : raise_for_status t = .error (.HTTPError t) := by
      unfold raise_for_status
      rw [if_pos ⟨h4, h6⟩]
    simp [get_document_text, this]
  refine ⟨⟨rfl, rfl⟩, ⟨herr 404 (by omega) (by omega), rfl⟩,
    fun h5 h6 => ⟨herr s (by omega) h6, ?_⟩,
    fun h4 h5 hne => ⟨herr s h4 (by omega), ?_⟩⟩
  · have h404 : ¬(s = 404) := by omega
    simp only [specErrClass]
    rw [if_neg h404, if_pos h5]
  · have hlt : ¬(500 ≤ s) := by omega
    simp only [specErrClass]
    rw [if_neg hne, if_neg hlt]

/-- Claim C5 witness: the hypotheses of `C5_error_taxonomy` discharged at
statuses 503 (transient) and 403 (fatal). -/
theorem C5_error_taxonomy_witness :
    (get_document_text (.ok 503 emptyDoc) (.ok 200 "") = .error (.HTTPError 503) ∧
      specErrClass (.HTTPError 503) = .TransientError) ∧
    (get_document_text (.ok 403 emptyDoc) (.ok 200 "") = .error (.HTTPError 403) ∧
      specErrClass (.HTTPError 403) = .FatalError) :=
  ⟨(C5_error_taxonomy emptyDoc (.ok 200 "") 503).2.2.1 (by decide) (by decide),
   (C5_error_taxonomy emptyDoc (.ok 200 "") 403).2.2.2 (by decide) (by decide) (by decide)⟩

/-! ### C6: raw-text fallback -/

/-- Claim C6: after a successful metadata request, a record with no
truthy `raw_text_url` yields a successful result whose `text` is the
fixed sentinel (regardless of the second exchange, which is never
performed), and a record with a truthy `raw_text_url` yields, after a
successful text request, the raw response body verbatim as `text`. -/
theorem C6_text_fallback (d : DocRecord) (tr : HttpResp String) (body : String) :
    (truthy d.raw_text_url = false →
      (get_document_text (.ok 200 d) tr).map DocResult.text = .ok noTextSentinel) ∧
    (truthy d.raw_text_url = true →
      (get_document_text (.ok 200 d) (.ok 200 body)).map DocResult.text = .ok body) := by
  constructor <;> intro h <;>
    simp [get_document_text, raise_for_status, h, Except.map]

/-- Claim C6 witness: the hypotheses of `C6_text_fallback` discharged on
a record without and a record with a `raw_text_url`. -/
theorem C6_text_fallback_witness :
    (get_document_text (.ok 200 emptyDoc) (.ok 200 "ignored")).map DocResult.text
        = .ok noTextSentinel ∧
    (get_document_text (.ok 200 docWithUrl) (.ok 200 "full text")).map DocResult.text
        = .ok "full text" :=
  ⟨(C6_text_fallback emptyDoc (.ok 200 "ignored") "ignored").1 rfl,
   (C6_text_fallback docWithUrl (.ok 200 "x") "full text").2 rfl⟩

/-! ### C7: president only for PRESDOCU -/

/-- Claim C7: after successful requests, the result's `president` is
`none` whenever the record's type differs from `PRESDOCU` — whatever
`president` value the raw record carries — and is the record's
`president` field when the type is `PRESDOCU`. -/
theorem C7_president_guard (d : DocRecord) (body : String) :
    (d.type ≠ some "PRESDOCU" →
      (get_document_text (.ok 200 d) (.ok 200 body)).map DocResult.president = .ok none) ∧
    (d.type = some "PRESDOCU" →
      (get_document_text (.ok 200 d) (.ok 200 body)).map DocResult.president
        = .ok d.president) := by
  constructor <;> intro h <;>
    cases htr : truthy d.raw_text_url <;>
      simp [get_document_text, raise_for_status, htr, h, Except.map]

/-- Claim C7 witness: the hypotheses of `C7_president_guard` discharged
on a `RULE` record carrying a stray `president` field and on a
`PRESDOCU` record. -/
theorem C7_president_guard_witness :
    (get_document_text (.ok 200 presidentRuleDoc) (.ok 200 "t")).map DocResult.president
        = .ok none ∧
    (get_document_text (.ok 200 presdocuDoc) (.ok 200 "t")).map DocResult.president
        = .ok (some "donald-trump") :=
  ⟨(C7_president_guard presidentRuleDoc "t").1 (by decide),
   (C7_president_guard presdocuDoc "t").2 rfl⟩

/-! ### C8: first agency only -/

/-- Claim C8: after successful requests, the result's `agency` is the
head of the record's agency-name list (with a missing list read as
empty): `none` when the list is empty or missing, the first entry when
non-empty; entries after the first never reach the result. -/
theorem C8_first_agency (d : DocRecord) (body : String) :
    ((get_document_text (.ok 200 d) (.ok 200 body)).map DocResult.agency
        = .ok (d.agency_names.getD []).head?) ∧
    (d.agency_names.getD [] = [] →
      (get_document_text (.ok 200 d) (.ok 200 body)).map DocResult.agency = .ok none) ∧
    (∀ x rest, d.agency_names.getD [] = x :: rest →
      (get_document_text (.ok 200 d) (.ok 200 body)).map DocResult.agency
        = .ok (some x)) := by
  have main : (get_document_text (.ok 200 d) (.ok 200 body)).map DocResult.agency
      = .ok (d.agency_names.getD []).head? := by
    cases htr : truthy d.raw_text_url <;>
      cases han : d.agency_names with
      | none => simp [get_document_text, raise_for_status, htr, han, Except.map]
      | some l =>
        cases l <;> simp [get_document_text, raise_for_status, htr, han, Except.map]
  exact ⟨main, fun h => by rw [main, h]; rfl,
    fun x rest h => by rw [main, h]; rfl⟩

/-- Claim C8 witness: the hypotheses of `C8_first_agency` discharged on a
record with two agency names — only the first is surfaced. -/
theorem C8_first_agency_witness :
    (get_document_text (.ok 200 twoAgencyDoc) (.ok 200 "t")).map DocResult.agency
      = .ok (some "Agency One") :=
  (C8_first_agency twoAgencyDoc "t").2.2 "Agency One" ["Agency Two"] rfl
